import Mathlib

/-!
Verification of the object-replication core of the FlaxEngine networking
subsystem (`Source/Engine/Networking/NetworkReplicator.h`).

The repository snapshot contains the public header of `NetworkReplicator`
(the `NetworkObjectRole` enum and the declarations of the replication API)
together with the inline bodies of `IsObjectOwned`, `IsObjectSimulated` and
`IsObjectReplicated`.  The implementation file of the replicator is not part
of the snapshot, so the behaviour of the registry operations, of the
spawn/despawn receive path, of the state-delta receive path and of the RPC
dispatcher is modelled from the specification; each such definition carries
a doc comment starting with `Modelled from the spec:`.
-/

namespace FlaxReplication

/-- The high-level network object role, from `NetworkReplicator.h`:
`None = 0`, `OwnedAuthoritative`, `Replicated`, `ReplicatedSimulated`. -/
inductive NetworkObjectRole where
  | None
  | OwnedAuthoritative
  | Replicated
  | ReplicatedSimulated
deriving DecidableEq, Repr

/-- Modelled from the spec: a `ReplicationEntry` is the per-object record of
the Replication Registry: `ObjectId`, `ownerClientId`, `localRole`,
`serializerTypeId`, optional `parentObjectId` (for hierarchical ownership),
`dirty` and `spawned` flags.  Object, client and type identifiers are
modelled as natural numbers. -/
structure ReplicationEntry where
  objectId : Nat
  ownerClientId : Nat
  localRole : NetworkObjectRole
  serializerTypeId : Nat
  parentObjectId : Option Nat
  dirty : Bool
  spawned : Bool
deriving DecidableEq, Repr

/-- Modelled from the spec: looking up an object in the Replication Registry
(the registry maps a runtime object identity to its replication metadata). -/
def lookupEntry (reg : List ReplicationEntry) (obj : Nat) : Option ReplicationEntry :=
  reg.find? (fun e => e.objectId == obj)

/-- Modelled from the spec: the replication-core state of one participant:
the global "is network active" flag, the set of connected participants, the
locally known (constructible) types, the Replication Registry, the local
mirrors created by Spawn messages (object id paired with its type id), and
the locally observable simulation state of each object (a byte sequence). -/
structure ReplState where
  networkActive : Bool
  connectedClients : List Nat
  knownTypes : List Nat
  registry : List ReplicationEntry
  mirrors : List (Nat × Nat)
  objectStates : List (Nat × List Nat)
deriving DecidableEq, Repr

/-- Modelled from the spec: the sentinel Client Id returned by
`GetObjectOwnerClientId` for an object with no registered owner. -/
def noOwnerClientId : Nat := 0

/-- Modelled from the spec: `GetObjectOwnerClientId` is a pure lookup in the
Replication Registry; on an unregistered object it returns the defined
no-owner sentinel.  It consumes the state and returns only the Client Id, so
it cannot mutate the registry. -/
def GetObjectOwnerClientId (s : ReplState) (obj : Nat) : Nat :=
  match lookupEntry s.registry obj with
  | some e => e.ownerClientId
  | none => noOwnerClientId

/-- Modelled from the spec: `GetObjectRole` is a pure lookup in the
Replication Registry; on an unregistered object it returns
`NetworkObjectRole.None`. -/
def GetObjectRole (s : ReplState) (obj : Nat) : NetworkObjectRole :=
  match lookupEntry s.registry obj with
  | some e => e.localRole
  | none => NetworkObjectRole.None

/-- From `NetworkReplicator.h` (inline body): checks if the network object is
owned locally; `return GetObjectRole(obj) == NetworkObjectRole::OwnedAuthoritative;`. -/
def IsObjectOwned (s : ReplState) (obj : Nat) : Bool :=
  GetObjectRole s obj == NetworkObjectRole.OwnedAuthoritative

/-- From `NetworkReplicator.h` (inline body): checks if the network object is
simulated locally; `return GetObjectRole(obj) != NetworkObjectRole::Replicated;`. -/
def IsObjectSimulated (s : ReplState) (obj : Nat) : Bool :=
  GetObjectRole s obj != NetworkObjectRole.Replicated

/-- From `NetworkReplicator.h` (inline body): checks if the network object is
replicated locally; the role is read once and compared against `Replicated`
and `ReplicatedSimulated`. -/
def IsObjectReplicated (s : ReplState) (obj : Nat) : Bool :=
  let role := GetObjectRole s obj
  role == NetworkObjectRole.Replicated || role == NetworkObjectRole.ReplicatedSimulated

/-- A `NetworkStream`: an owned, growable byte sequence with independent
read and write cursors (the substrate all serialization writes into/reads
from).  Only its identity-relevant shape is needed here. -/
structure NetworkStream where
  data : List Nat
  readPos : Nat
  writePos : Nat
deriving DecidableEq, Repr

/-- Modelled from the spec: a `SerializerEntry` maps a type identifier to
`(serializeFn, deserializeFn, serializeTag, deserializeTag)`.  The C++
callback `void (*)(void* instance, NetworkStream* stream, void* tag)`
mutates the instance and the stream, so it is embedded as a pure function
from `(instance, stream, tag)` to the updated `(instance, stream)`; the
opaque `void*` tags are modelled as natural numbers. -/
structure SerializerEntry where
  typeId : Nat
  serializeFn : List Nat → NetworkStream → Nat → List Nat × NetworkStream
  deserializeFn : List Nat → NetworkStream → Nat → List Nat × NetworkStream
  serializeTag : Nat
  deserializeTag : Nat

/-- Modelled from the spec: lookup of the Serializer Registry by type
identifier. -/
def lookupSerializer (sreg : List SerializerEntry) (typeId : Nat) : Option SerializerEntry :=
  sreg.find? (fun e => e.typeId == typeId)

/-- Modelled from the spec: `AddSerializer` registers one entry per type
identifier (registration happens once at startup; the registry is a list of
entries looked up by type identifier). -/
def AddSerializer (sreg : List SerializerEntry) (e : SerializerEntry) : List SerializerEntry :=
  e :: sreg

/-- Modelled from the spec: `InvokeSerializer(typeId, instance, stream,
serialize)` looks up the entry and invokes the matching function, passing
the registered opaque tag value through unchanged; it returns `true`
(failed) if no entry is registered for `typeId`, leaving the instance and
the stream unmodified; otherwise it invokes the serialize or deserialize
callback and returns `false`. -/
def InvokeSerializer (sreg : List SerializerEntry) (typeId : Nat) (inst : List Nat)
    (stream : NetworkStream) (serialize : Bool) : Bool × List Nat × NetworkStream :=
  match lookupSerializer sreg typeId with
  | none => (true, inst, stream)
  | some e =>
    if serialize then
      let r := e.serializeFn inst stream e.serializeTag
      (false, r.1, r.2)
    else
      let r := e.deserializeFn inst stream e.deserializeTag
      (false, r.1, r.2)

/-- Modelled from the spec: `AddObject(obj, parent)` inserts a new
`ReplicationEntry` with role `None`, records `parent` for hierarchical
propagation, and is a no-op if replication is globally inactive (no active
network session).  The registry maps each object identity to one entry, so
an already-registered object is not inserted twice.  The object's type
identifier (obtained in the engine from the object's scripting type) is
passed explicitly. -/
def AddObject (s : ReplState) (obj : Nat) (typeId : Nat) (parentObj : Option Nat) : ReplState :=
  if s.networkActive = false then s
  else if (lookupEntry s.registry obj).isSome then s
  else
    { s with registry :=
        { objectId := obj, ownerClientId := noOwnerClientId,
          localRole := NetworkObjectRole.None, serializerTypeId := typeId,
          parentObjectId := parentObj, dirty := false, spawned := false } :: s.registry }

/-- Modelled from the spec: `DirtyObject(obj)` marks the entry for inclusion
in the next Replication Tick; it is only meaningful when the local role is
`OwnedAuthoritative` or `ReplicatedSimulated`; marking a `Replicated`-role
object dirty is a no-op (it has no local authority to contribute). -/
def DirtyObject (s : ReplState) (obj : Nat) : ReplState :=
  match lookupEntry s.registry obj with
  | none => s
  | some e =>
    match e.localRole with
    | NetworkObjectRole.OwnedAuthoritative | NetworkObjectRole.ReplicatedSimulated =>
      { s with registry := s.registry.map (fun x =>
          if x.objectId == obj then { x with dirty := true } else x) }
    | _ => s

/-- Modelled from the spec: the set of outbound sources the Replication Tick
walks — all entries with `dirty = true` and local role `OwnedAuthoritative`
or `ReplicatedSimulated`; each such entry drives one outbound state delta. -/
def tickOutboundSources (s : ReplState) : List Nat :=
  (s.registry.filter (fun e => e.dirty &&
    (e.localRole == NetworkObjectRole.OwnedAuthoritative ||
     e.localRole == NetworkObjectRole.ReplicatedSimulated))).map (fun e => e.objectId)

/-- Modelled from the spec: whether `x` is the object `root` itself or is
reachable from `root` by following recorded child links downwards, i.e. the
chain of `parentObjectId` links from `x` reaches `root`.  The walk is
bounded by fuel (the registry is finite and an object is never its own
ancestor, so registry size is enough fuel). -/
def isDescendant (reg : List ReplicationEntry) (root : Nat) : Nat → Nat → Bool
  | 0, x => x == root
  | fuel + 1, x =>
    x == root ||
      match lookupEntry reg x with
      | some e =>
        match e.parentObjectId with
        | some p => isDescendant reg root fuel p
        | none => false
      | none => false

/-- Modelled from the spec: `SetObjectOwnership(obj, ownerClientId,
localRole, hierarchical)` is the single entry point for role/owner
mutation.  It rejects (ignores) assignments where `ownerClientId` does not
correspond to a connected participant, leaving the entry unchanged;
otherwise it updates the local entry and, when `hierarchical = true`,
applies the same ownership (owner + role) to every object registered in the
parent tree below `obj`. -/
def SetObjectOwnership (s : ReplState) (obj : Nat) (ownerClientId : Nat)
    (localRole : NetworkObjectRole) (hierarchical : Bool) : ReplState :=
  if (lookupEntry s.registry obj).isNone then s
  else if (s.connectedClients.contains ownerClientId) = false then s
  else if hierarchical then
    { s with registry := s.registry.map (fun e =>
        if isDescendant s.registry obj s.registry.length e.objectId then
          { e with ownerClientId := ownerClientId, localRole := localRole }
        else e) }
  else
    { s with registry := s.registry.map (fun e =>
        if e.objectId == obj then
          { e with ownerClientId := ownerClientId, localRole := localRole }
        else e) }

/-- A Spawn control message: `{ObjectId, TypeId, OwnerClientId, InitialRole,
StateBytes}`. -/
structure SpawnMessage where
  objectId : Nat
  typeId : Nat
  ownerClientId : Nat
  initialRole : NetworkObjectRole
  stateBytes : List Nat
deriving DecidableEq, Repr

/-- Modelled from the spec: whether the participant currently holds a local
mirror for the given object id. -/
def hasMirror (s : ReplState) (id : Nat) : Bool :=
  s.mirrors.any (fun m => m.1 == id)

/-- Modelled from the spec: the local role a receiver assigns to a spawned
mirror — the role carried by the Spawn message, except never
`OwnedAuthoritative` on the receiving side (authority stays with the
sender's ownership record), in which case `Replicated` is used. -/
def spawnLocalRole (r : NetworkObjectRole) : NetworkObjectRole :=
  match r with
  | NetworkObjectRole.OwnedAuthoritative => NetworkObjectRole.Replicated
  | other => other

/-- Modelled from the spec: the receiver side of a Spawn control message.
A duplicate spawn for an already-mirrored (or already-registered) object id
is ignored rather than double-constructing; if the carried type identifier
is unknown locally the spawn fails (schema mismatch) without constructing a
mirror; otherwise the receiver constructs a local mirror via the type
identifier, inserts a registry entry (never `OwnedAuthoritative`), and
installs the carried initial state. -/
def applySpawnMessage (s : ReplState) (msg : SpawnMessage) : ReplState :=
  if hasMirror s msg.objectId || (lookupEntry s.registry msg.objectId).isSome then s
  else if s.knownTypes.contains msg.typeId then
    { s with
      mirrors := (msg.objectId, msg.typeId) :: s.mirrors,
      registry :=
        { objectId := msg.objectId, ownerClientId := msg.ownerClientId,
          localRole := spawnLocalRole msg.initialRole, serializerTypeId := msg.typeId,
          parentObjectId := none, dirty := false, spawned := true } :: s.registry,
      objectStates := (msg.objectId, msg.stateBytes) :: s.objectStates }
  else s

/-- Modelled from the spec: the receiver side of a Despawn control message.
A despawn for an object id with no local mirror and no registry entry is
ignored rather than erroring; otherwise the receiver removes the registry
entry and destroys the local mirror (and its observable state). -/
def applyDespawnMessage (s : ReplState) (id : Nat) : ReplState :=
  if hasMirror s id || (lookupEntry s.registry id).isSome then
    { s with
      mirrors := s.mirrors.filter (fun m => !(m.1 == id)),
      registry := s.registry.filter (fun e => !(e.objectId == id)),
      objectStates := s.objectStates.filter (fun p => !(p.1 == id)) }
  else s

/-- The number of local mirrors held for a given object id. -/
def mirrorCount (s : ReplState) (id : Nat) : Nat :=
  (s.mirrors.filter (fun m => m.1 == id)).length

/-- The number of Replication Registry entries held for a given object id. -/
def entryCount (s : ReplState) (id : Nat) : Nat :=
  (s.registry.filter (fun e => e.objectId == id)).length

/-- A StateDelta message: `{ObjectId, StateBytes}`. -/
structure StateDeltaMessage where
  objectId : Nat
  stateBytes : List Nat
deriving DecidableEq, Repr

/-- The locally observable simulation state of an object (empty when never
written). -/
def getObjectState (states : List (Nat × List Nat)) (id : Nat) : List Nat :=
  match states.find? (fun p => p.1 == id) with
  | some p => p.2
  | none => []

/-- Overwrite the locally observable state recorded for an object id. -/
def setObjectState (states : List (Nat × List Nat)) (id : Nat) (v : List Nat) :
    List (Nat × List Nat) :=
  (id, v) :: states.filter (fun p => !(p.1 == id))

/-- Modelled from the spec: the receive path for an inbound StateDelta.  A
message for an unknown object id is silently dropped (protocol race).  For a
known id with local role `Replicated` or `ReplicatedSimulated` the delta is
applied via `InvokeSerializer(..., serialize = false)`, unconditionally
overwriting local state (a missing serializer is a configuration error and
drops the message).  For an object with local role `OwnedAuthoritative` the
message is discarded — the local participant is authoritative and never
accepts remote overwrites of its own owned object. -/
def applyStateDelta (sreg : List SerializerEntry) (s : ReplState)
    (msg : StateDeltaMessage) : ReplState :=
  match lookupEntry s.registry msg.objectId with
  | none => s
  | some e =>
    match e.localRole with
    | NetworkObjectRole.OwnedAuthoritative => s
    | NetworkObjectRole.None => s
    | _ =>
      let cur := getObjectState s.objectStates msg.objectId
      let inStream : NetworkStream :=
        { data := msg.stateBytes, readPos := 0, writePos := msg.stateBytes.length }
      let r := InvokeSerializer sreg e.serializerTypeId cur inStream false
      if r.1 then s
      else { s with objectStates := setObjectState s.objectStates msg.objectId r.2.1 }

/-- Modelled from the spec: an `RpcEntry` holds, per (type, method-name)
pair, the execute callback, the `isServer`/`isClient` permission flags and a
channel class.  The callback is embedded as a pure function from the
argument bytes to the observable effect it produces. -/
structure RpcEntry where
  typeId : Nat
  name : String
  execute : List Nat → List Nat
  isServer : Bool
  isClient : Bool
  channel : Nat

/-- Modelled from the spec: lookup of the RPC table by (type, name). -/
def lookupRpc (rreg : List RpcEntry) (typeId : Nat) (name : String) : Option RpcEntry :=
  rreg.find? (fun e => e.typeId == typeId && e.name == name)

/-- Modelled from the spec: validation of an invoking participant's
permission against the entry's `isServer`/`isClient` flags for the current
local role: a server-only entry may be invoked only by a server-equivalent
participant, a client entry only by a client. -/
def rpcInvokeAllowed (e : RpcEntry) (callerIsServer : Bool) : Bool :=
  (e.isServer && callerIsServer) || (e.isClient && !callerIsServer)

/-- An RpcCall message: `{ObjectId, TypeId, MethodNameOrIndex, ArgBytes}`,
tagged with the entry's configured channel. -/
structure RpcMessage where
  objectId : Nat
  typeId : Nat
  name : String
  channel : Nat
  argBytes : List Nat
deriving DecidableEq, Repr

/-- Modelled from the spec: `EndInvokeRPC(obj, type, name, argsStream)`
looks up the `RpcEntry` for `(type, name)`, validates the caller's
permission against `isServer`/`isClient` for the current local role, and on
success wraps the argument bytes into an RpcCall message handed to the
transport on the entry's channel; a missing entry or a permission violation
is rejected and nothing is sent (`none`). -/
def EndInvokeRPC (rreg : List RpcEntry) (callerIsServer : Bool) (obj : Nat)
    (typeId : Nat) (name : String) (argsStream : NetworkStream) : Option RpcMessage :=
  match lookupRpc rreg typeId name with
  | none => none
  | some e =>
    if rpcInvokeAllowed e callerIsServer then
      some { objectId := obj, typeId := typeId, name := name,
             channel := e.channel, argBytes := argsStream.data }
    else none

/-- Modelled from the spec: the receiver side of an RpcCall message.  The
dispatcher resolves the entry for `(typeId, name)` (a missing entry drops
the call), re-validates the sender's permission against the receiver's own
knowledge of the sender's role (never trusting the sender's claim), resolves
the object id to a local object (an unknown id is a silently dropped no-op),
and only then invokes the execute callback, returning its observable effect;
`none` means the callback was never invoked. -/
def receiveRpcMessage (rreg : List RpcEntry) (senderIsServer : Bool) (s : ReplState)
    (msg : RpcMessage) : Option (List Nat) :=
  match lookupRpc rreg msg.typeId msg.name with
  | none => none
  | some e =>
    if rpcInvokeAllowed e senderIsServer then
      match lookupEntry s.registry msg.objectId with
      | none => none
      | some _ => some (e.execute msg.argBytes)
    else none

/-! Concrete example data used to exercise the operations on closed inputs. -/

/-- A small concrete stream. -/
def exStream : NetworkStream := { data := [7, 8], readPos := 0, writePos := 2 }

/-- A participant state with no active network session. -/
def offlineState : ReplState :=
  { networkActive := false, connectedClients := [], knownTypes := [],
    registry := [], mirrors := [], objectStates := [] }

/-- A participant state with an active session and an empty registry. -/
def emptyState : ReplState := { offlineState with networkActive := true }

/-- A registry entry owned (authoritative) by the local participant. -/
def ownedEntry : ReplicationEntry :=
  { objectId := 1, ownerClientId := 4, localRole := NetworkObjectRole.OwnedAuthoritative,
    serializerTypeId := 3, parentObjectId := none, dirty := false, spawned := true }

/-- A registry entry replicated from a remote owner, child of object 1. -/
def replicatedEntry : ReplicationEntry :=
  { objectId := 2, ownerClientId := 4, localRole := NetworkObjectRole.Replicated,
    serializerTypeId := 3, parentObjectId := some 1, dirty := false, spawned := true }

/-- A participant state holding `ownedEntry` and `replicatedEntry`. -/
def twoEntryState : ReplState :=
  { networkActive := true, connectedClients := [0, 4, 7], knownTypes := [3],
    registry := [ownedEntry, replicatedEntry], mirrors := [], objectStates := [] }

/-- A parent entry whose owner is participant 0. -/
def cexParentEntry : ReplicationEntry :=
  { objectId := 1, ownerClientId := 0, localRole := NetworkObjectRole.OwnedAuthoritative,
    serializerTypeId := 3, parentObjectId := none, dirty := false, spawned := false }

/-- A child of object 1 with a different owner and role than its parent. -/
def cexChildEntry : ReplicationEntry :=
  { objectId := 2, ownerClientId := 5, localRole := NetworkObjectRole.Replicated,
    serializerTypeId := 3, parentObjectId := some 1, dirty := false, spawned := false }

/-- A state in which only participant 0 is connected. -/
def cexState : ReplState :=
  { networkActive := true, connectedClients := [0], knownTypes := [],
    registry := [cexParentEntry, cexChildEntry], mirrors := [], objectStates := [] }

/-- The same two-entry hierarchy as `cexState`, but with participant 7
connected as well. -/
def hierState : ReplState := { cexState with connectedClients := [0, 7] }

/-- A concrete serializer entry for type 3. -/
def exSerializerEntry : SerializerEntry :=
  { typeId := 3,
    serializeFn := fun inst stream tag =>
      (inst, { data := stream.data ++ inst ++ [tag], readPos := stream.readPos,
               writePos := stream.writePos + inst.length + 1 }),
    deserializeFn := fun _ stream tag =>
      (stream.data ++ [tag], { stream with readPos := stream.readPos + stream.data.length }),
    serializeTag := 11, deserializeTag := 12 }

/-- A serializer registry holding only `exSerializerEntry`. -/
def exSerializerReg : List SerializerEntry := [exSerializerEntry]

/-- A server-only RPC entry (may be invoked by the server only). -/
def exRpcEntry : RpcEntry :=
  { typeId := 1, name := "fire", execute := fun args => args,
    isServer := true, isClient := false, channel := 2 }

/-- An RPC table holding only `exRpcEntry`. -/
def exRpcReg : List RpcEntry := [exRpcEntry]

/-- A concrete RpcCall message addressed at `exRpcEntry`. -/
def exRpcMsg : RpcMessage :=
  { objectId := 1, typeId := 1, name := "fire", channel := 2, argBytes := [4] }

/-- A concrete Spawn message for a fresh object of a known type. -/
def exSpawnMsg : SpawnMessage :=
  { objectId := 9, typeId := 3, ownerClientId := 4,
    initialRole := NetworkObjectRole.Replicated, stateBytes := [1, 2] }

/-! General helper lemmas about lookups, filters and the descendant walk. -/

theorem find?_filterNot {α : Type} (p : α → Bool) (l : List α) :
    (l.filter (fun a => !(p a))).find? p = none := by
  rw [List.find?_eq_none]
  intro x hx
  have hnp := (List.mem_filter.mp hx).2
  simp only [Bool.not_eq_true'] at hnp
  simp [hnp]

theorem any_filterNot {α : Type} (p : α → Bool) (l : List α) :
    (l.filter (fun a => !(p a))).any p = false := by
  rw [← Bool.not_eq_true, List.any_eq_true]
  rintro ⟨x, hx, hpx⟩
  have hnp := (List.mem_filter.mp hx).2
  simp [hpx] at hnp

theorem lookupEntry_map (reg : List ReplicationEntry) (f : ReplicationEntry → ReplicationEntry)
    (hf : ∀ e, (f e).objectId = e.objectId) (x : Nat) :
    lookupEntry (reg.map f) x = (lookupEntry reg x).map f := by
  induction reg with
  | nil => rfl
  | cons a l ih =>
    unfold lookupEntry at ih ⊢
    simp only [List.map_cons, List.find?_cons]
    have hfa : ((f a).objectId == x) = (a.objectId == x) := by rw [hf a]
    rw [hfa]
    cases h : (a.objectId == x) with
    | true => rfl
    | false => exact ih

theorem isDescendant_self (reg : List ReplicationEntry) (root fuel : Nat) :
    isDescendant reg root fuel root = true := by
  cases fuel <;> simp [isDescendant]

theorem isDescendant_child (reg : List ReplicationEntry) (root x : Nat)
    (ex : ReplicationEntry) (hx : lookupEntry reg x = some ex)
    (hp : ex.parentObjectId = some root) (fuel : Nat) (hfuel : 1 ≤ fuel) :
    isDescendant reg root fuel x = true := by
  obtain ⟨n, rfl⟩ : ∃ n, fuel = n + 1 := ⟨fuel - 1, by omega⟩
  simp [isDescendant, hx, hp, isDescendant_self]

/-! Claims. -/

/-- C1: for every object whose local role is `OwnedAuthoritative`, applying
any inbound StateDelta message for that object leaves the state unchanged —
the replication receive path discards inbound state messages targeting an
`OwnedAuthoritative` entry. -/
theorem ownedAuthoritative_discards_state_delta
    (sreg : List SerializerEntry) (s : ReplState) (msg : StateDeltaMessage)
    (e : ReplicationEntry) (hlook : lookupEntry s.registry msg.objectId = some e)
    (hrole : e.localRole = NetworkObjectRole.OwnedAuthoritative) :
    applyStateDelta sreg s msg = s := by
  simp [applyStateDelta, hlook, hrole]

/-- Witness for C1 at a concrete state: object 1 is `OwnedAuthoritative` in
`twoEntryState`, so a StateDelta for it is discarded. -/
theorem ownedAuthoritative_discards_state_delta_witness :
    applyStateDelta [] twoEntryState { objectId := 1, stateBytes := [9, 9] } = twoEntryState :=
  ownedAuthoritative_discards_state_delta [] twoEntryState
    { objectId := 1, stateBytes := [9, 9] } ownedEntry (by decide) (by decide)

/-- C4: on an object not registered in the Replication Registry,
`GetObjectOwnerClientId` returns the no-owner sentinel and `GetObjectRole`
returns `NetworkObjectRole.None`; both are pure lookups (they consume the
state and return only a value, so they cannot mutate the registry). -/
theorem unregistered_lookups_return_sentinels (s : ReplState) (obj : Nat)
    (h : lookupEntry s.registry obj = none) :
    GetObjectOwnerClientId s obj = noOwnerClientId ∧
    GetObjectRole s obj = NetworkObjectRole.None := by
  constructor <;> simp [GetObjectOwnerClientId, GetObjectRole, h]

/-- Witness for C4 at a concrete state: object 5 is unregistered in
`emptyState`. -/
theorem unregistered_lookups_return_sentinels_witness :
    GetObjectOwnerClientId emptyState 5 = noOwnerClientId ∧
    GetObjectRole emptyState 5 = NetworkObjectRole.None :=
  unregistered_lookups_return_sentinels emptyState 5 (by decide)

/-- C9: `IsObjectOwned` returns true exactly when `GetObjectRole` is
`OwnedAuthoritative`, and `IsObjectReplicated` returns true exactly when
`GetObjectRole` is `Replicated` or `ReplicatedSimulated` (the inline bodies
in `NetworkReplicator.h`). -/
theorem role_query_equivalences (s : ReplState) (obj : Nat) :
    (IsObjectOwned s obj = true ↔
      GetObjectRole s obj = NetworkObjectRole.OwnedAuthoritative) ∧
    (IsObjectReplicated s obj = true ↔
      (GetObjectRole s obj = NetworkObjectRole.Replicated ∨
       GetObjectRole s obj = NetworkObjectRole.ReplicatedSimulated)) := by
  constructor
  · simp [IsObjectOwned]
  · simp [IsObjectReplicated]

/-- C10: an object whose role resolves to `NetworkObjectRole.None` — in
particular any object not registered in the Replication Registry — is
reported as locally simulated (`IsObjectSimulated = true`) and not
replicated (`IsObjectReplicated = false`). -/
theorem none_role_simulated_not_replicated (s : ReplState) (obj : Nat) :
    (lookupEntry s.registry obj = none → GetObjectRole s obj = NetworkObjectRole.None) ∧
    (GetObjectRole s obj = NetworkObjectRole.None →
      IsObjectSimulated s obj = true ∧ IsObjectReplicated s obj = false) := by
  constructor
  · intro h
    simp [GetObjectRole, h]
  · intro h
    constructor <;> simp [IsObjectSimulated, IsObjectReplicated, h]

/-- Witness for C10 at a concrete state: object 5 is unregistered in
`emptyState`, resolves to role `None`, and is reported simulated and not
replicated. -/
theorem none_role_simulated_not_replicated_witness :
    IsObjectSimulated emptyState 5 = true ∧ IsObjectReplicated emptyState 5 = false :=
  (none_role_simulated_not_replicated emptyState 5).2
    ((none_role_simulated_not_replicated emptyState 5).1 (by decide))

/-- C3: `InvokeSerializer` returns the failure indicator `true` exactly when
no serializer entry is registered for the type identifier; on that failure
the instance and the stream are left unmodified; when an entry exists it
invokes the matching serialize or deserialize callback with the entry's
registered tag passed through unchanged and returns `false`. -/
theorem invokeSerializer_contract (sreg : List SerializerEntry) (typeId : Nat)
    (inst : List Nat) (stream : NetworkStream) (b : Bool) :
    ((InvokeSerializer sreg typeId inst stream b).1 = true ↔
      lookupSerializer sreg typeId = none) ∧
    (lookupSerializer sreg typeId = none →
      InvokeSerializer sreg typeId inst stream b = (true, inst, stream)) ∧
    (∀ e, lookupSerializer sreg typeId = some e →
      InvokeSerializer sreg typeId inst stream true =
        (false, e.serializeFn inst stream e.serializeTag) ∧
      InvokeSerializer sreg typeId inst stream false =
        (false, e.deserializeFn inst stream e.deserializeTag)) := by
  refine ⟨?_, ?_, ?_⟩
  · cases h : lookupSerializer sreg typeId with
    | none => simp [InvokeSerializer, h]
    | some e => cases b <;> simp [InvokeSerializer, h]
  · intro h
    simp [InvokeSerializer, h]
  · intro e h
    constructor <;> simp [InvokeSerializer, h]

/-- Witness for C3 at concrete inputs: type 3 is registered in
`exSerializerReg`, so serialization succeeds and the registered tag reaches
the callback unchanged. -/
theorem invokeSerializer_contract_witness :
    InvokeSerializer exSerializerReg 3 [1, 2] exStream true =
      (false, exSerializerEntry.serializeFn [1, 2] exStream exSerializerEntry.serializeTag) ∧
    InvokeSerializer exSerializerReg 3 [1, 2] exStream false =
      (false, exSerializerEntry.deserializeFn [1, 2] exStream exSerializerEntry.deserializeTag) :=
  (invokeSerializer_contract exSerializerReg 3 [1, 2] exStream true).2.2
    exSerializerEntry rfl

/-- C6: an RPC entry registered with `isServer = true` and
`isClient = false` that is invoked by a participant whose local role is not
server-equivalent is rejected at `EndInvokeRPC` time on the caller side
(nothing is handed to the transport), and even if such a message arrives it
is re-validated and rejected on the receiver side, so the entry's execute
callback is never invoked (`none` is returned before the callback runs). -/
theorem server_only_rpc_rejected_for_client (rreg : List RpcEntry)
    (e : RpcEntry) (typeId : Nat) (name : String)
    (hlook : lookupRpc rreg typeId name = some e)
    (hS : e.isServer = true) (hC : e.isClient = false) :
    (∀ obj argsStream, EndInvokeRPC rreg false obj typeId name argsStream = none) ∧
    (∀ s msg, msg.typeId = typeId → msg.name = name →
      receiveRpcMessage rreg false s msg = none) := by
  constructor
  · intro obj argsStream
    simp [EndInvokeRPC, hlook, rpcInvokeAllowed, hS, hC]
  · intro s msg ht hn
    simp [receiveRpcMessage, ht, hn, hlook, rpcInvokeAllowed, hS, hC]

/-- Witness for C6 at concrete inputs: `exRpcEntry` is server-only; a
non-server caller is rejected at invoke time and a non-server sender's
message is dropped by the receiver. -/
theorem server_only_rpc_rejected_for_client_witness :
    EndInvokeRPC exRpcReg false 5 1 "fire" exStream = none ∧
    receiveRpcMessage exRpcReg false twoEntryState exRpcMsg = none :=
  ⟨(server_only_rpc_rejected_for_client exRpcReg exRpcEntry 1 "fire" rfl rfl rfl).1
      5 exStream,
   (server_only_rpc_rejected_for_client exRpcReg exRpcEntry 1 "fire" rfl rfl rfl).2
      twoEntryState exRpcMsg rfl rfl⟩

/-- C7: `AddObject(obj, parent)` is a no-op when no network session is
active; when the network is active and the object is not yet registered, it
inserts a new `ReplicationEntry` whose role is `None` and whose parent link
is the given parent. -/
theorem addObject_inserts_none_role (s : ReplState) (obj typeId : Nat)
    (parentObj : Option Nat) :
    (s.networkActive = false → AddObject s obj typeId parentObj = s) ∧
    (s.networkActive = true → lookupEntry s.registry obj = none →
      lookupEntry (AddObject s obj typeId parentObj).registry obj =
        some { objectId := obj, ownerClientId := noOwnerClientId,
               localRole := NetworkObjectRole.None, serializerTypeId := typeId,
               parentObjectId := parentObj, dirty := false, spawned := false }) := by
  constructor
  · intro h
    simp [AddObject, h]
  · intro hact hfresh
    have h2 : (lookupEntry s.registry obj).isSome = false := by simp [hfresh]
    simp only [AddObject, hact, h2, Bool.false_eq_true, if_false, if_true]
    simp [lookupEntry, List.find?_cons]

/-- Witness for C7 at concrete inputs: offline `AddObject` is a no-op, and
an online insertion of fresh object 6 registers role `None` with parent 1. -/
theorem addObject_inserts_none_role_witness :
    AddObject offlineState 6 3 (some 1) = offlineState ∧
    lookupEntry (AddObject twoEntryState 6 3 (some 1)).registry 6 =
      some { objectId := 6, ownerClientId := noOwnerClientId,
             localRole := NetworkObjectRole.None, serializerTypeId := 3,
             parentObjectId := some 1, dirty := false, spawned := false } :=
  ⟨(addObject_inserts_none_role offlineState 6 3 (some 1)).1 (by decide),
   (addObject_inserts_none_role twoEntryState 6 3 (some 1)).2 (by decide) (by decide)⟩

/-- C8: calling `DirtyObject` on an entry whose local role is `Replicated`
is a no-op, so it does not add the object to the outbound sources of the
next Replication Tick; moreover every outbound source of any tick comes
from a dirty entry whose role is `OwnedAuthoritative` or
`ReplicatedSimulated`. -/
theorem dirtyObject_replicated_noop (s : ReplState) (obj : Nat)
    (e : ReplicationEntry) (hlook : lookupEntry s.registry obj = some e)
    (hrole : e.localRole = NetworkObjectRole.Replicated) :
    DirtyObject s obj = s ∧
    tickOutboundSources (DirtyObject s obj) = tickOutboundSources s ∧
    (∀ s2 x, x ∈ tickOutboundSources s2 → ∃ e2, e2 ∈ s2.registry ∧
      e2.objectId = x ∧ e2.dirty = true ∧
      (e2.localRole = NetworkObjectRole.OwnedAuthoritative ∨
       e2.localRole = NetworkObjectRole.ReplicatedSimulated)) := by
  have hnoop : DirtyObject s obj = s := by
    simp [DirtyObject, hlook, hrole]
  refine ⟨hnoop, by rw [hnoop], ?_⟩
  intro s2 x hx
  simp only [tickOutboundSources, List.mem_map, List.mem_filter] at hx
  obtain ⟨e2, ⟨hmem, hcond⟩, hobj⟩ := hx
  simp only [Bool.and_eq_true, Bool.or_eq_true, beq_iff_eq] at hcond
  exact ⟨e2, hmem, hobj, hcond.1, hcond.2⟩

/-- Witness for C8 at a concrete state: object 2 has role `Replicated` in
`twoEntryState`, so dirtying it changes nothing and produces no outbound
source. -/
theorem dirtyObject_replicated_noop_witness :
    DirtyObject twoEntryState 2 = twoEntryState ∧
    tickOutboundSources (DirtyObject twoEntryState 2) = tickOutboundSources twoEntryState :=
  ⟨(dirtyObject_replicated_noop twoEntryState 2 replicatedEntry (by decide) (by decide)).1,
   (dirtyObject_replicated_noop twoEntryState 2 replicatedEntry (by decide) (by decide)).2.1⟩

/-- A Despawn for an object id with no local mirror and no registry entry
is a no-op. -/
theorem despawn_noop (s : ReplState) (id : Nat) (h1 : hasMirror s id = false)
    (h2 : lookupEntry s.registry id = none) : applyDespawnMessage s id = s := by
  rw [applyDespawnMessage, h1, h2]
  simp

/-- After a Despawn there is no residual registry entry and no residual
mirror for the despawned object id. -/
theorem despawn_no_residual (s : ReplState) (id : Nat) :
    lookupEntry (applyDespawnMessage s id).registry id = none ∧
    hasMirror (applyDespawnMessage s id) id = false := by
  cases h : (hasMirror s id || (lookupEntry s.registry id).isSome) with
  | false =>
    have h1 : hasMirror s id = false := by
      cases hq : hasMirror s id with
      | false => rfl
      | true => rw [hq] at h; simp at h
    have h2 : lookupEntry s.registry id = none := by
      cases hq : lookupEntry s.registry id with
      | none => rfl
      | some e => rw [hq] at h; simp at h
    rw [despawn_noop s id h1 h2]
    exact ⟨h2, h1⟩
  | true =>
    have hs : applyDespawnMessage s id =
        { s with
          mirrors := s.mirrors.filter (fun m => !(m.1 == id)),
          registry := s.registry.filter (fun e => !(e.objectId == id)),
          objectStates := s.objectStates.filter (fun p => !(p.1 == id)) } := by
      rw [applyDespawnMessage, h]
      simp
    rw [hs]
    exact ⟨find?_filterNot (fun e : ReplicationEntry => e.objectId == id) s.registry,
           any_filterNot (fun m : Nat × Nat => m.1 == id) s.mirrors⟩

/-- A second Despawn for the same object id is always a no-op. -/
theorem despawn_idem (s : ReplState) (id : Nat) :
    applyDespawnMessage (applyDespawnMessage s id) id = applyDespawnMessage s id :=
  despawn_noop (applyDespawnMessage s id) id (despawn_no_residual s id).2
    (despawn_no_residual s id).1

/-- C5: applying the same Spawn message twice for a fresh object id produces
exactly one local mirror and one registry entry (the duplicate is ignored);
applying a Despawn for an object id with no local mirror (in particular a
second Despawn after the first) is a no-op producing no error and no
residual entry. -/
theorem spawn_despawn_idempotent (s : ReplState) (msg : SpawnMessage)
    (hm : ∀ m ∈ s.mirrors, m.1 ≠ msg.objectId)
    (he : ∀ e ∈ s.registry, e.objectId ≠ msg.objectId)
    (ht : s.knownTypes.contains msg.typeId = true) :
    applySpawnMessage (applySpawnMessage s msg) msg = applySpawnMessage s msg ∧
    mirrorCount (applySpawnMessage s msg) msg.objectId = 1 ∧
    entryCount (applySpawnMessage s msg) msg.objectId = 1 ∧
    applyDespawnMessage (applyDespawnMessage (applySpawnMessage s msg) msg.objectId)
        msg.objectId =
      applyDespawnMessage (applySpawnMessage s msg) msg.objectId ∧
    lookupEntry
        (applyDespawnMessage (applySpawnMessage s msg) msg.objectId).registry
        msg.objectId = none ∧
    hasMirror (applyDespawnMessage (applySpawnMessage s msg) msg.objectId)
        msg.objectId = false ∧
    (∀ s2 id2, hasMirror s2 id2 = false → lookupEntry s2.registry id2 = none →
      applyDespawnMessage s2 id2 = s2) := by
  have hA : hasMirror s msg.objectId = false := by
    rw [hasMirror, ← Bool.not_eq_true, List.any_eq_true]
    rintro ⟨m, hmem, hp⟩
    exact hm m hmem (by simpa using hp)
  have hB : lookupEntry s.registry msg.objectId = none := by
    rw [lookupEntry, List.find?_eq_none]
    intro e hmem
    simp [he e hmem]
  have hS1 : applySpawnMessage s msg =
      { s with
        mirrors := (msg.objectId, msg.typeId) :: s.mirrors,
        registry :=
          { objectId := msg.objectId, ownerClientId := msg.ownerClientId,
            localRole := spawnLocalRole msg.initialRole,
            serializerTypeId := msg.typeId, parentObjectId := none,
            dirty := false, spawned := true } :: s.registry,
        objectStates := (msg.objectId, msg.stateBytes) :: s.objectStates } := by
    rw [applySpawnMessage, hA, hB, ht]
    simp
  have hmf : s.mirrors.filter (fun m => m.1 == msg.objectId) = [] :=
    List.filter_eq_nil_iff.mpr (fun m hmem => by simp [hm m hmem])
  have hef : s.registry.filter (fun e => e.objectId == msg.objectId) = [] :=
    List.filter_eq_nil_iff.mpr (fun e hmem => by simp [he e hmem])
  refine ⟨?_, ?_, ?_, despawn_idem _ _, (despawn_no_residual _ _).1,
    (despawn_no_residual _ _).2, fun s2 id2 h1 h2 => despawn_noop s2 id2 h1 h2⟩
  · rw [hS1]
    simp [applySpawnMessage, hasMirror]
  · rw [hS1]
    simp [mirrorCount, List.filter_cons, hmf]
  · rw [hS1]
    simp [entryCount, List.filter_cons, hef]

/-- Witness for C5 at a concrete state: spawning object 9 twice into
`twoEntryState` yields one mirror and one entry; despawning it twice is
idempotent and leaves no residual entry. -/
theorem spawn_despawn_idempotent_witness :
    applySpawnMessage (applySpawnMessage twoEntryState exSpawnMsg) exSpawnMsg =
      applySpawnMessage twoEntryState exSpawnMsg ∧
    mirrorCount (applySpawnMessage twoEntryState exSpawnMsg) 9 = 1 ∧
    entryCount (applySpawnMessage twoEntryState exSpawnMsg) 9 = 1 :=
  ⟨(spawn_despawn_idempotent twoEntryState exSpawnMsg (by decide) (by decide)
      (by decide)).1,
   (spawn_despawn_idempotent twoEntryState exSpawnMsg (by decide) (by decide)
      (by decide)).2.1,
   (spawn_despawn_idempotent twoEntryState exSpawnMsg (by decide) (by decide)
      (by decide)).2.2.1⟩

/-- C2 counterexample: the resolver rejects ownership assignments whose
`ownerClientId` is not a connected participant, leaving the registry
unchanged.  In `cexState` only participant 0 is connected; calling
`SetObjectOwnership(1, 7, Replicated, hierarchical = true)` is rejected, so
object 2 — whose recorded parent is object 1 — keeps an
`(ownerClientId, localRole)` pair different from object 1's. -/
theorem setObjectOwnership_unconnected_owner_cex :
    lookupEntry cexState.registry 1 = some cexParentEntry ∧
    lookupEntry (SetObjectOwnership cexState 1 7 NetworkObjectRole.Replicated true).registry 2 =
      some cexChildEntry ∧
    cexChildEntry.parentObjectId = some 1 ∧
    lookupEntry (SetObjectOwnership cexState 1 7 NetworkObjectRole.Replicated true).registry 1 =
      some cexParentEntry ∧
    ¬(cexChildEntry.ownerClientId = cexParentEntry.ownerClientId ∧
      cexChildEntry.localRole = cexParentEntry.localRole) := by
  decide

/-- C2 (amended): for every registered object `obj` and every call
`SetObjectOwnership(obj, ownerClientId, localRole, hierarchical = true)`
where `ownerClientId` corresponds to a connected participant, after the call
returns `obj` carries `(ownerClientId, localRole)`, every object whose
recorded parent is `obj` carries exactly that same pair, and so does every
object further down the parent tree below `obj`. -/
theorem setObjectOwnership_hierarchical_propagates (s : ReplState)
    (obj owner : Nat) (role : NetworkObjectRole) (e0 : ReplicationEntry)
    (hobj : lookupEntry s.registry obj = some e0)
    (hconn : s.connectedClients.contains owner = true) :
    lookupEntry (SetObjectOwnership s obj owner role true).registry obj =
      some { e0 with ownerClientId := owner, localRole := role } ∧
    (∀ x ex,
      lookupEntry (SetObjectOwnership s obj owner role true).registry x = some ex →
      ex.parentObjectId = some obj →
      ex.ownerClientId = owner ∧ ex.localRole = role) ∧
    (∀ x ex,
      lookupEntry (SetObjectOwnership s obj owner role true).registry x = some ex →
      isDescendant s.registry obj s.registry.length x = true →
      ex.ownerClientId = owner ∧ ex.localRole = role) := by
  have hsome : (lookupEntry s.registry obj).isNone = false := by simp [hobj]
  have hpres : ∀ e : ReplicationEntry,
      ((fun e : ReplicationEntry =>
        if isDescendant s.registry obj s.registry.length e.objectId then
          { e with ownerClientId := owner, localRole := role }
        else e) e).objectId = e.objectId := by
    intro e
    by_cases h : isDescendant s.registry obj s.registry.length e.objectId = true
    · simp [h]
    · simp [h]
  have hstep : SetObjectOwnership s obj owner role true =
      { s with registry := s.registry.map (fun e : ReplicationEntry =>
          if isDescendant s.registry obj s.registry.length e.objectId then
            { e with ownerClientId := owner, localRole := role }
          else e) } := by
    rw [SetObjectOwnership, hsome, hconn]
    simp
  have hmap : ∀ x,
      lookupEntry (SetObjectOwnership s obj owner role true).registry x =
      (lookupEntry s.registry x).map (fun e : ReplicationEntry =>
        if isDescendant s.registry obj s.registry.length e.objectId then
          { e with ownerClientId := owner, localRole := role }
        else e) := by
    intro x
    rw [hstep]
    exact lookupEntry_map _ _ hpres x
  have hC : ∀ x ex,
      lookupEntry (SetObjectOwnership s obj owner role true).registry x = some ex →
      isDescendant s.registry obj s.registry.length x = true →
      ex.ownerClientId = owner ∧ ex.localRole = role := by
    intro x ex hx hdesc
    rw [hmap x] at hx
    cases hy : lookupEntry s.registry x with
    | none => rw [hy] at hx; simp at hx
    | some ey =>
      rw [hy] at hx
      simp only [Option.map_some', Option.some.injEq] at hx
      have hidy : ey.objectId = x := by simpa using List.find?_some hy
      rw [hidy, if_pos hdesc] at hx
      rw [← hx]
      exact ⟨rfl, rfl⟩
  have hlen : 1 ≤ s.registry.length :=
    List.length_pos.mpr (List.ne_nil_of_mem (List.mem_of_find?_eq_some hobj))
  refine ⟨?_, ?_, hC⟩
  · rw [hmap obj, hobj]
    have hid0 : e0.objectId = obj := by simpa using List.find?_some hobj
    simp [hid0, isDescendant_self]
  · intro x ex hx hp
    have hxcopy := hx
    rw [hmap x] at hxcopy
    cases hy : lookupEntry s.registry x with
    | none => rw [hy] at hxcopy; simp at hxcopy
    | some ey =>
      rw [hy] at hxcopy
      simp only [Option.map_some', Option.some.injEq] at hxcopy
      have hpe : ey.parentObjectId = ex.parentObjectId := by
        by_cases hdy : isDescendant s.registry obj s.registry.length ey.objectId = true
        · rw [if_pos hdy] at hxcopy
          rw [← hxcopy]
        · rw [if_neg hdy] at hxcopy
          rw [hxcopy]
      have hpey : ey.parentObjectId = some obj := by rw [hpe]; exact hp
      exact hC x ex hx
        (isDescendant_child s.registry obj x ey hy hpey s.registry.length hlen)

/-- Witness for the amended C2 at a concrete state: in `hierState`
participant 7 is connected; the hierarchical call re-owns parent object 1
and its child object 2 to `(7, Replicated)`. -/
theorem setObjectOwnership_hierarchical_propagates_witness :
    lookupEntry (SetObjectOwnership hierState 1 7 NetworkObjectRole.Replicated true).registry 1 =
      some { cexParentEntry with ownerClientId := 7, localRole := NetworkObjectRole.Replicated } ∧
    ({ cexChildEntry with ownerClientId := 7, localRole := NetworkObjectRole.Replicated } : ReplicationEntry).ownerClientId = 7 ∧
    ({ cexChildEntry with ownerClientId := 7, localRole := NetworkObjectRole.Replicated } : ReplicationEntry).localRole =
      NetworkObjectRole.Replicated :=
  ⟨(setObjectOwnership_hierarchical_propagates hierState 1 7
      NetworkObjectRole.Replicated cexParentEntry (by decide) (by decide)).1,
   (setObjectOwnership_hierarchical_propagates hierState 1 7
      NetworkObjectRole.Replicated cexParentEntry (by decide) (by decide)).2.1 2
      { cexChildEntry with ownerClientId := 7, localRole := NetworkObjectRole.Replicated }
      (by decide) (by decide)⟩

end FlaxReplication
